import Mathlib

/-!
Verification of the bridge-server scripts `gradio_bridge.py` and
`python_bridge.py` against their natural-language specification.

The two Python scripts are shallowly embedded as pure Lean functions over an
explicit `World` record that packages every external effect the scripts
perform (environment variables, filesystem probes, pickle/YAML
deserialization, the Gradio client, HTTP requests, `json.loads`, the process
scan, wall-clock time).  File-system paths are opaque string keys into the
world's oracles; `os.path.join` is modelled with a uniform "/" separator,
while the raw Windows path literals of the source keep their backslashes, so
the two spellings stay distinct keys exactly as they are distinct paths in
the source.  Python exceptions are modelled by the `PyExn` record (exception
class name plus message) and fallible steps return `Except PyExn`.
-/

set_option autoImplicit false

/-- A Python exception: the class name (used by `except` clauses that select
on a class) and the `str(e)` message. -/
structure PyExn where
  cls : String
  msg : String
deriving DecidableEq, Repr

/-- Python / JSON values as they flow through the scripts: the payload of
`json.loads`/`json.dumps`, of `pickle.load` and of `yaml.safe_load`.
Dictionaries are association lists with string keys. -/
inductive JVal where
  | null
  | bool (b : Bool)
  | num (q : ℚ)
  | str (s : String)
  | arr (xs : List JVal)
  | obj (fields : List (String × JVal))

/-- First-match lookup in an association list (Python `dict` access; the
worlds we build never carry duplicate keys). -/
def jLook : List (String × JVal) → String → Option JVal
  | [], _ => none
  | (k, v) :: rest, key => if k = key then some v else jLook rest key

/-- Python truthiness of a value (`if x:`). -/
def jTruthy : JVal → Bool
  | .null => false
  | .bool b => b
  | .num q => q != 0
  | .str s => s != ""
  | .arr xs => !xs.isEmpty
  | .obj fs => !fs.isEmpty

/-- Whether `x[:n]` slicing succeeds on the value (strings and lists slice;
numbers, booleans, `None` and dicts raise `TypeError`). -/
def jSliceable : JVal → Bool
  | .str _ => true
  | .arr _ => true
  | _ => false

/-- Truthiness of an optional value (`None` is falsy). -/
def pyT : Option JVal → Bool
  | none => false
  | some v => jTruthy v

/-- Field access on a JSON object; `none` on non-objects or missing keys. -/
def jField (j : JVal) (k : String) : Option JVal :=
  match j with
  | .obj fs => jLook fs k
  | _ => none

/-- First `some` produced by `f` along a list: the early-`return` pattern of
the scripts' search loops. -/
def firstHit {α β : Type} (f : α → Option β) : List α → Option β
  | [] => none
  | a :: l =>
    match f a with
    | some b => some b
    | none => firstHit f l

/-- Match a literal at the head of a character list, returning the rest. -/
def dropLit : List Char → List Char → Option (List Char)
  | [], rest => some rest
  | _ :: _, [] => none
  | c :: cs, d :: ds => if c = d then dropLit cs ds else none

/-- Python `s.startswith(pat)`. -/
def strStarts (s pat : String) : Bool := (dropLit pat.toList s.toList).isSome

/-- Python `s.endswith(pat)`. -/
def strEnds (s pat : String) : Bool := (dropLit pat.toList.reverse s.toList.reverse).isSome

/-- Python `s.upper()` (ASCII). -/
def strToUpper (s : String) : String := String.mk (s.toList.map Char.toUpper)

/-- Python `s.lower()` (ASCII). -/
def strToLower (s : String) : String := String.mk (s.toList.map Char.toLower)

/-- Python `s.split("\n")` as used when iterating the lines of a file. -/
def splitOnNl : List Char → List (List Char)
  | [] => [[]]
  | c :: cs =>
    if c = '\n' then [] :: splitOnNl cs
    else
      match splitOnNl cs with
      | [] => [[c]]
      | l :: rest => (c :: l) :: rest

/-- The lines of a text file. -/
def pyLines (s : String) : List String := (splitOnNl s.toList).map String.mk

/-- Python `str.strip()` (the source only ever strips ASCII whitespace in
practice; exotic Unicode whitespace is outside the modelled inputs). -/
def pyStrip (s : String) : String :=
  String.mk (((s.toList.dropWhile Char.isWhitespace).reverse.dropWhile Char.isWhitespace).reverse)

/-- A character of the regex class `[A-Za-z0-9_-]`. -/
def isKeyChar (c : Char) : Bool := c.isAlpha || c.isDigit || c = '_' || c = '-'

/-- A character of the regex class `\w`, i.e. `[A-Za-z0-9_]`. -/
def wordChar (c : Char) : Bool := c.isAlpha || c.isDigit || c = '_'

/-- A character of the regex class `[A-Za-z0-9]`. -/
def alnumChar (c : Char) : Bool := c.isAlpha || c.isDigit

/-- Compilation of `re.match(r'^sk-[A-Za-z0-9_-]+', t)` (as a boolean): the
text starts with the three characters `s`, `k`, `-` followed by at least one
character of the class. -/
def reMatchSk (t : String) : Bool :=
  match t.toList with
  | c1 :: c2 :: c3 :: c4 :: _ => c1 = 's' && c2 = 'k' && c3 = '-' && isKeyChar c4
  | _ => false

/-- `gradio_bridge.validate_api_key` (lines 22-27): empty strings are
rejected, otherwise the stripped key must match `^sk-[A-Za-z0-9_-]+`. -/
def validate_api_key (key : String) : Bool :=
  if key = "" then false
  else reMatchSk (pyStrip key)

/-- The shape stated by the specification for C4: the string is non-empty and,
stripped of surrounding whitespace, starts with `sk-` followed by at least one
character from `[A-Za-z0-9_-]`.  This definition follows the claim's words,
to be compared with `validate_api_key`, which follows the code. -/
def specKeyShape (s : String) : Prop :=
  s ≠ "" ∧
    match (pyStrip s).toList with
    | c1 :: c2 :: c3 :: c4 :: _ => c1 = 's' ∧ c2 = 'k' ∧ c3 = '-' ∧ isKeyChar c4 = true
    | _ => False

/-- Python `int(s)`: optional sign, decimal digits, surrounding whitespace
allowed; anything else raises `ValueError`, modelled as `none`.  (Underscore
separators and non-ASCII digits are outside the modelled inputs.) -/
def digitsVal (l : List Char) : Nat :=
  l.foldl (fun acc c => 10 * acc + (c.toNat - '0'.toNat)) 0

/-- Python `int(s)` on a string, `none` when unparseable. -/
def pyInt (s : String) : Option Int :=
  match (pyStrip s).toList with
  | [] => none
  | '-' :: ds => if !ds.isEmpty && ds.all Char.isDigit then some (-(digitsVal ds : Int)) else none
  | '+' :: ds => if !ds.isEmpty && ds.all Char.isDigit then some ((digitsVal ds : Int)) else none
  | ds => if ds.all Char.isDigit then some ((digitsVal ds : Int)) else none

/-- The ambient world of one invocation of `gradio_bridge.py`: every external
effect the script performs, as oracles.  `readText`, `pickleLoad` and
`yamlLoad` combine opening and reading/deserializing a file, returning the
raised exception when any step of that fails.  `pickleTimesOut p` says that
the pickle worker process for `p` does not deliver a result within the
timeout.  `procScan` is the list of directories extracted (in iteration
order) from running `webui.py` processes, `none` when `psutil` iteration
raises.  `clientConnect` is the `Client(webui_url)` construction together
with the `.endpoints` keys; `predict` maps an `api_name` to the call's
outcome.  `now` is `int(time.time())`. -/
structure World where
  cwd : String
  home : String
  now : Int
  argv : List String
  env : String → Option String
  pathExists : String → Bool
  listDir : String → List String
  readText : String → Except PyExn String
  pickleLoad : String → Except PyExn JVal
  pickleTimesOut : String → Bool
  yamlLoad : String → Except PyExn JVal
  procScan : Option (List String)
  clientConnect : Except PyExn (List String)
  predict : String → Except PyExn (List JVal)
  jsonLoads : String → Except PyExn JVal

/-- The fixed list of port-file candidates of `read_port_file`
(lines 38-42): the bare relative name, the same name joined to the current
working directory, and `~/tmp/<service>.port`. -/
def portFiles (w : World) (service : String) : List String :=
  ["." ++ strToLower service ++ "-port",
   w.cwd ++ "/." ++ strToLower service ++ "-port",
   w.home ++ "/tmp/" ++ strToLower service ++ ".port"]

/-- The port-file loop of `read_port_file` (lines 44-52): the first candidate
that exists, reads and parses as an integer; every failure falls through to
the next candidate, and `default_port` when none succeeds. -/
def portFromFiles (w : World) (service : String) (default_port : Int) : Int :=
  match firstHit (fun f =>
      if w.pathExists f then ((w.readText f).toOption.bind pyInt) else none)
      (portFiles w service) with
  | some n => n
  | none => default_port

/-- `gradio_bridge.read_port_file` (lines 29-52): the `SERVICE_PORT`
environment variable when set, non-empty and parseable (a set-but-empty or
unparseable value falls through, the `except: pass`), otherwise the port
files, otherwise the default. -/
def read_port_file (w : World) (service : String) (default_port : Int) : Int :=
  match w.env (strToUpper service ++ "_PORT") with
  | some s =>
    if s ≠ "" then
      match pyInt s with
      | some n => n
      | none => portFromFiles w service default_port
    else portFromFiles w service default_port
  | none => portFromFiles w service default_port

/-- The port-resolution rule in the words of claim C7: the integer parsed
from the environment variable when that variable is set and parseable,
otherwise the value of the first candidate file that exists, reads and
parses, otherwise the default.  This definition follows the claim's words,
to be compared with `read_port_file`, which follows the code. -/
def portResolutionAsClaimed (w : World) (service : String) (default_port : Int) : Int :=
  match (w.env (strToUpper service ++ "_PORT")).bind pyInt with
  | some n => n
  | none =>
    match firstHit (fun f =>
        if w.pathExists f then ((w.readText f).toOption.bind pyInt) else none)
        (portFiles w service) with
    | some n => n
    | none => default_port

/-- `gradio_bridge.read_pickle_with_timeout` (lines 54-79).  The worker
process either delivers `pickleLoad path` to the queue in time or the
parent's `queue.get(timeout=...)` times out; per the CPython documentation,
`multiprocessing.Queue.get` raises `queue.Empty` (not
`multiprocessing.TimeoutError`) when no item arrives within the timeout.
The `except multiprocessing.TimeoutError` clause of the source therefore
only converts an exception that already has that class into
`TimeoutError("Pickle load timed out for <path>")`; a worker exception is
re-raised unchanged, a successful load is yielded. -/
def read_pickle_with_timeout (w : World) (path : String) : Except PyExn JVal :=
  let fromQueue : Except PyExn JVal :=
    if w.pickleTimesOut path then .error ⟨"queue.Empty", ""⟩
    else w.pickleLoad path
  match fromQueue with
  | .error e =>
    if e.cls = "multiprocessing.TimeoutError" then
      .error ⟨"TimeoutError", "Pickle load timed out for " ++ path⟩
    else .error e
  | .ok v => .ok v

/-- The two hard-coded Windows settings directories of
`read_api_key_from_webui_settings` (lines 153-156), raw-string literals in
the source. -/
def webuiSettingsPaths : List String :=
  ["D:\\AI Agent\\AI Agent\\web-ui\\tmp\\webui_settings",
   "D:\\New folder (2)\\AI Agent\\web-ui\\tmp\\webui_settings"]

/-- One file of the `read_api_key_from_webui_settings` scan (lines 168-181):
open and unpickle; when the result is a dict containing `llm_api_key`, the
value is logged with an `api_key[:5]` slice and returned without any validity
check.  A failed open/unpickle, a non-dict, a missing key, or a `TypeError`
from slicing a non-sliceable value are all logged and skipped. -/
def scanSettingsFile (w : World) (fp : String) : Option JVal :=
  match w.pickleLoad fp with
  | .error _ => none
  | .ok (.obj es) =>
    match jLook es "llm_api_key" with
    | some v => if jSliceable v then some v else none
    | none => none
  | .ok _ => none

/-- `gradio_bridge.read_api_key_from_webui_settings` (lines 151-184): walk
the files of each existing settings directory and return the first stored
`llm_api_key` value, unvalidated. -/
def read_api_key_from_webui_settings (w : World) : Option JVal :=
  firstHit (scanSettingsFile w)
    ((webuiSettingsPaths.filter w.pathExists).flatMap
      (fun p => (w.listDir p).map (fun fn => p ++ "/" ++ fn)))

/-- The hard-coded candidate locations of `search_web_ui_location`
(lines 111-118). -/
def webUiBasePaths (w : World) : List String :=
  ["D:/New folder (2)/AI Agent/web-ui",
   "D:/AI Agent/AI Agent/web-ui",
   "D:/AI Agent/web-ui",
   w.cwd ++ "/../../../web-ui",
   w.cwd ++ "/../../web-ui"]

/-- `gradio_bridge.search_web_ui_location` (lines 100-149): candidates are,
in probing order, the directories of running `webui.py` processes (each
`insert(0, ...)` in iteration order, so the list reversed), then the
`WEB_UI_PATH` environment variable when present (`in os.environ`, whatever
its value), then the hard-coded paths; the first candidate that exists and
contains `webui.py` wins.  A failing process scan is logged and skipped.
The `lru_cache`/`_cached_paths` memoization is the identity on this pure
function. -/
def search_web_ui_location (w : World) : Option String :=
  let withEnv :=
    match w.env "WEB_UI_PATH" with
    | some p => p :: webUiBasePaths w
    | none => webUiBasePaths w
  let cands :=
    (match w.procScan with
     | some dirs => dirs.reverse
     | none => []) ++ withEnv
  firstHit (fun p =>
    if w.pathExists p && w.pathExists (p ++ "/webui.py") then some p else none) cands

/-- Maximal run of characters satisfying `p` at the head of the list. -/
def takeRun (p : Char → Bool) : List Char → (List Char × List Char)
  | [] => ([], [])
  | c :: cs =>
    if p c then
      let r := takeRun p cs
      (c :: r.1, r.2)
    else ([], c :: cs)

/-- Whether `pat` occurs as a contiguous substring (Python `pat in content`). -/
def hasSub (pat : List Char) : List Char → Bool
  | [] => pat.isEmpty
  | c :: cs => (dropLit pat (c :: cs)).isSome || hasSub pat cs

/-- Attempt of the regex `llm_api_key"[^\w]+(sk-[A-Za-z0-9]{48})` at the head
of the list.  After the literal, `[^\w]+` can only end right before a word
character, so it must consume the maximal non-word run (which must be
non-empty); the group then needs `sk-` followed by at least 48 alphanumeric
characters, of which exactly 48 are captured. -/
def tmpKeyAt (l : List Char) : Option (List Char) :=
  match dropLit ("llm_api_key\"".toList) l with
  | none => none
  | some rest =>
    let nw := takeRun (fun c => !wordChar c) rest
    if nw.1.isEmpty then none
    else
      match dropLit ['s', 'k', '-'] nw.2 with
      | none => none
      | some rest3 =>
        let run := (takeRun alnumChar rest3).1
        if run.length ≥ 48 then some ('s' :: 'k' :: '-' :: run.take 48) else none

/-- `re.search` of the pattern above: try every start position, leftmost
match wins (line 224). -/
def tmpTextSearch : List Char → Option (List Char)
  | [] => none
  | c :: cs =>
    match tmpKeyAt (c :: cs) with
    | some k => some k
    | none => tmpTextSearch cs

/-- The text fallback of `find_api_key_in_tmp_settings` (lines 218-231): read
the file as text; when it mentions `llm_api_key`, extract a key with the
regex and return it if it passes `validate_api_key`.  Every failure is
silently skipped. -/
def tmpTextScan (w : World) (fp : String) : Option String :=
  match w.readText fp with
  | .error _ => none
  | .ok content =>
    if hasSub ("llm_api_key".toList) content.toList then
      match tmpTextSearch content.toList with
      | some k =>
        if validate_api_key (String.mk k) then some (String.mk k) else none
      | none => none
    else none

/-- One file of the `find_api_key_in_tmp_settings` scan (lines 206-233):
first the pickle route under the timeout wrapper; a stored string key is
returned only when `validate_api_key` accepts it.  The text fallback runs
exactly when the pickle route raises: a load/timeout failure, or the
`AttributeError`/`TypeError` that `validate_api_key(key.strip())` raises on
a truthy non-string value (falsy non-strings fail `if not key` cleanly and
are skipped without an exception). -/
def tmpScanFile (w : World) (fp : String) : Option String :=
  match read_pickle_with_timeout w fp with
  | .ok (.obj es) =>
    match jLook es "llm_api_key" with
    | some (.str s) => if validate_api_key s then some s else none
    | some .null => none
    | some (.bool b) => if b then tmpTextScan w fp else none
    | some (.num q) => if q = 0 then none else tmpTextScan w fp
    | some (.arr l) => if l.isEmpty then none else tmpTextScan w fp
    | some (.obj l) => if l.isEmpty then none else tmpTextScan w fp
    | none => none
  | .ok _ => none
  | .error _ => tmpTextScan w fp

/-- The candidate directories of `find_api_key_in_tmp_settings`
(lines 189-198): three hard-coded joined paths plus, when found, the located
Web UI installation's `tmp/webui_settings`. -/
def tmpSettingsPaths (w : World) : List String :=
  ["D:/AI Agent/AI Agent/web-ui/tmp/webui_settings",
   "D:/New folder (2)/AI Agent/web-ui/tmp/webui_settings",
   "D:/AI Agent/web-ui/tmp/webui_settings"] ++
  (match search_web_ui_location w with
   | some p => [p ++ "/tmp/webui_settings"]
   | none => [])

/-- `gradio_bridge.find_api_key_in_tmp_settings` (lines 186-235): first hit
over all files of all existing candidate directories. -/
def find_api_key_in_tmp_settings (w : World) : Option String :=
  firstHit (tmpScanFile w)
    (((tmpSettingsPaths w).filter w.pathExists).flatMap
      (fun p => (w.listDir p).map (fun fn => p ++ "/" ++ fn)))

/-- `gradio_bridge.get_user_api_key` (lines 81-98): the `.api-key` file in
the current working directory, stripped; returned when non-empty, not a
comment line, and accepted by `validate_api_key`. -/
def get_user_api_key (w : World) : Option String :=
  if w.pathExists (w.cwd ++ "/.api-key") then
    match w.readText (w.cwd ++ "/.api-key") with
    | .error _ => none
    | .ok content =>
      if pyStrip content ≠ "" && !(strStarts (pyStrip content) "#") then
        if validate_api_key (pyStrip content) then some (pyStrip content) else none
      else none
  else none

/-- One line of the `.env` scan of `find_api_key_in_web_ui` (lines 267-274):
a line starting with `OPENAI_API_KEY=` yields the stripped remainder when it
validates; an invalid key is logged and the loop continues. -/
def envLineKey (line : String) : Option String :=
  if strStarts line "OPENAI_API_KEY=" then
    if validate_api_key (pyStrip (line.drop 15)) then some (pyStrip (line.drop 15)) else none
  else none

/-- The `config.yaml` route of `find_api_key_in_web_ui` (lines 245-260): a
non-empty dict whose `llm_api_key` is a validated string; any exception,
including the `AttributeError` from stripping a truthy non-string, is logged
and falls through to the `.env` route. -/
def webUiYamlKey (w : World) (p : String) : Option String :=
  if w.pathExists (p ++ "/config.yaml") then
    match w.yamlLoad (p ++ "/config.yaml") with
    | .ok (.obj es) =>
      if es.isEmpty then none
      else
        match jLook es "llm_api_key" with
        | some (.str s) => if validate_api_key s then some s else none
        | _ => none
    | _ => none
  else none

/-- `gradio_bridge.find_api_key_in_web_ui`, continued: after the YAML route
(`webUiYamlKey`), the `.env` file line by line. -/
def find_api_key_in_web_ui (w : World) : Option String :=
  match search_web_ui_location w with
  | none => none
  | some p =>
    match webUiYamlKey w p with
    | some k => some k
    | none =>
      if w.pathExists (p ++ "/.env") then
        match w.readText (p ++ "/.env") with
        | .error _ => none
        | .ok content => firstHit envLineKey (pyLines content)
      else none

/-- The environment step of `get_config` (lines 294-301):
`os.environ.get('OPENAI_API_KEY', '')`; a truthy value is kept only when it
validates (else set to `None`), a falsy one is left as the empty string. -/
def envStep (w : World) : Option JVal :=
  let v := (w.env "OPENAI_API_KEY").getD ""
  if v ≠ "" then
    if validate_api_key v then some (.str v) else none
  else some (.str "")

/-- The `OPENAI_API_KEY` environment source viewed as a key producer: a set,
non-empty, validated value. -/
def envValidKey (w : World) : Option String :=
  match w.env "OPENAI_API_KEY" with
  | some v => if v ≠ "" && validate_api_key v then some v else none
  | none => none

/-- The API-key cascade of `get_config` (lines 280-307), translated
if-by-if: each later source is used only when the accumulated value is
Python-falsy. -/
def resolveApiKey (w : World) : Option JVal :=
  let k1 := read_api_key_from_webui_settings w
  let k2 := if pyT k1 then k1 else (find_api_key_in_tmp_settings w).map JVal.str
  let k3 := if pyT k2 then k2 else (get_user_api_key w).map JVal.str
  let k4 := if pyT k3 then k3 else envStep w
  if pyT k4 then k4 else (find_api_key_in_web_ui w).map JVal.str

/-- The five sources of the cascade in their fixed probing order. -/
def keySources (w : World) : List (Option JVal) :=
  [read_api_key_from_webui_settings w,
   (find_api_key_in_tmp_settings w).map JVal.str,
   (get_user_api_key w).map JVal.str,
   (envValidKey w).map JVal.str,
   (find_api_key_in_web_ui w).map JVal.str]

/-- First Python-truthy value in a list of optional values. -/
def firstTruthy : List (Option JVal) → Option JVal
  | [] => none
  | o :: rest => if pyT o then o else firstTruthy rest

/-- The `--config PATH` pairs of the command line (lines 318-320): every
`--config` that has a successor contributes that successor; sequential
`insert(0, ...)` puts them at the front in reverse order. -/
def configArgPaths (argv : List String) : List String :=
  ((argv.zip argv.tail).filterMap
    (fun pr => if pr.1 = "--config" then some pr.2 else none)).reverse

/-- The probing-order list of config-file paths of `get_config`
(lines 310-320): command-line `--config` paths first (in reversed insertion
order), then `./config.yaml`, `./config.pkl`, `../../web-ui/config.yaml`,
`~/.webui/config`. -/
def configPaths (w : World) : List String :=
  configArgPaths w.argv ++
  [w.cwd ++ "/config.yaml",
   w.cwd ++ "/config.pkl",
   w.cwd ++ "/../../web-ui/config.yaml",
   w.home ++ "/.webui/config"]

/-- The dictionary a config path contributes (lines 323-347): only existing
paths; `.pkl` paths through the pickle timeout wrapper, everything else
through YAML; non-dicts and every exception contribute nothing. -/
def loadedDict (w : World) (p : String) : Option (List (String × JVal)) :=
  if w.pathExists p then
    if strEnds p ".pkl" then
      match read_pickle_with_timeout w p with
      | .ok (.obj es) => some es
      | _ => none
    else
      match w.yamlLoad p with
      | .ok (.obj es) => some es
      | _ => none
  else none

/-- Python `config.update(loaded)`: keys of `es` override the accumulator. -/
def dictUpd (acc : String → Option JVal) (es : List (String × JVal)) : String → Option JVal :=
  fun k =>
    match jLook es k with
    | some v => some v
    | none => acc k

/-- One step of the probing loop of `get_config` (lines 323-347): merge the
dictionary a path contributes, if any. -/
def mergeStep (w : World) (acc : String → Option JVal) (p : String) : String → Option JVal :=
  match loadedDict w p with
  | some es => dictUpd acc es
  | none => acc

/-- The merged `config` dictionary after the probing loop of `get_config`
(lines 322-347). -/
def mergedConfig (w : World) : String → Option JVal :=
  (configPaths w).foldl (mergeStep w) (fun _ => none)

/-- The value for field `k` contributed by the config file probed last among
those that define it: the first hit over the reversed probing order. -/
def lastDefined (w : World) (k : String) : Option JVal :=
  firstHit (fun p => (loadedDict w p).bind (fun es => jLook es k)) (configPaths w).reverse

/-- The default value of each of the four non-key fields (lines 350-354). -/
def defaultFor : String → JVal
  | "llm_provider" => .str "openai"
  | "llm_model_name" => .str "gpt-4o"
  | "llm_temperature" => .num (7 / 10)
  | "llm_base_url" => .str ""
  | _ => .null

/-- `gradio_bridge.get_config` (lines 280-358): the five-field record, each
non-key field from the merged dictionary with its default, the key from the
cascade (`None` encoded as `null`). -/
def get_config (w : World) : List (String × JVal) :=
  [("llm_provider", (mergedConfig w "llm_provider").getD (.str "openai")),
   ("llm_model_name", (mergedConfig w "llm_model_name").getD (.str "gpt-4o")),
   ("llm_temperature", (mergedConfig w "llm_temperature").getD (.num (7 / 10))),
   ("llm_base_url", (mergedConfig w "llm_base_url").getD (.str "")),
   ("llm_api_key", (resolveApiKey w).getD .null)]

/-- The two output streams of the process. -/
inductive Channel where
  | stdout
  | stderr
deriving DecidableEq

/-- `gradio_bridge.log` (lines 19-20): every diagnostic message is printed to
standard error. -/
def log (message : String) : Channel × String := (Channel.stderr, message)

/-- An object printed with a false success flag and an error string: the
uniform error shape of `gradio_bridge.py`. -/
def mkErr (m : String) : JVal :=
  .obj [("success", .bool false), ("error", .str m)]

/-- Outcome of one `main` invocation: the JSON values printed to standard
output (each `print(json.dumps(x))` contributes one element) and the
outbound Web UI interactions, in order (`"client"` for a
`Client(webui_url)` construction, otherwise a `predict` api name). -/
structure MainOut where
  stdout : List JVal
  calls : List String

/-- Python `d.get(k, default)`: `AttributeError` on non-dicts. -/
def jGet (v : JVal) (k : String) (dflt : JVal) : Except PyExn JVal :=
  match v with
  | .obj fs => .ok ((jLook fs k).getD dflt)
  | _ => .error ⟨"AttributeError", "object has no attribute get"⟩

/-- The `api_key[:4]`/`api_key[-4:]` slices in the logging f-strings:
`TypeError` on non-sliceable values. -/
def jSliceChk (v : JVal) : Except PyExn Unit :=
  if jSliceable v then .ok () else .error ⟨"TypeError", "object is not subscriptable"⟩

/-- `json.loads(sys.argv[2]) if len(sys.argv) > 2 else {}` (lines 416, 493). -/
def argsOf (w : World) : Except PyExn JVal :=
  if w.argv.length > 2 then w.jsonLoads (w.argv.getD 2 "") else .ok (.obj [])

/-- `None`-able path rendered as JSON (`web_ui_path` fields). -/
def optPath : Option String → JVal
  | some p => .str p
  | none => .null

/-- The `health` branch (lines 388-413): locate the Web UI, connect, list the
endpoint keys; a raised exception prints the error object instead. -/
def healthBranch (w : World) (cfg : List (String × JVal)) : MainOut :=
  let webUiPath := search_web_ui_location w
  match w.clientConnect with
  | .error e => ⟨[.obj [("success", .bool false), ("status", .str "error"), ("error", .str e.msg)]], ["client"]⟩
  | .ok eps =>
    ⟨[.obj [("success", .bool true), ("status", .str "ok"),
            ("endpoints", .arr (eps.map JVal.str)),
            ("config", .obj
              [("llm_provider", (jLook cfg "llm_provider").getD .null),
               ("llm_model_name", (jLook cfg "llm_model_name").getD .null),
               ("has_api_key", .bool (jTruthy ((jLook cfg "llm_api_key").getD .null))),
               ("web_ui_path", optPath webUiPath)])]], ["client"]⟩

/-- The success object of `create_session` (lines 477-484). -/
def csSuccessObj (w : World) (cid : JVal) (r : List JVal) : JVal :=
  .obj [("success", .bool true),
        ("sessionId", .str ("session-" ++ toString w.now)),
        ("contextId", cid),
        ("browserView", r.getD 0 (.str "")),
        ("finalResult", r.getD 1 (.str "")),
        ("errors", r.getD 2 (.str ""))]

/-- The inner `try` of `create_session` (lines 434-490): the logging slice of
the key, the client construction, the `/run_with_stream` call; any raise
prints the error object. -/
def createSessionInner (w : World) (apiKey cid : JVal) : MainOut :=
  match jSliceChk apiKey with
  | .error e => ⟨[mkErr e.msg], []⟩
  | .ok _ =>
    match w.clientConnect with
    | .error e => ⟨[mkErr e.msg], ["client"]⟩
    | .ok _ =>
      match w.predict "/run_with_stream" with
      | .error e => ⟨[mkErr e.msg], ["client", "/run_with_stream"]⟩
      | .ok r => ⟨[csSuccessObj w cid r], ["client", "/run_with_stream"]⟩

/-- The `create_session` branch (lines 415-490).  Argument processing
(`json.loads` and the chained `.get` calls, lines 416-425) happens before any
`try` of this branch, so its exceptions propagate to `main`'s top-level
handler.  A falsy key after the `args` override prints the no-key error and
returns before any outbound call. -/
def createSessionBranch (w : World) (apiKeyCfg : JVal) : Except PyExn MainOut :=
  match argsOf w with
  | .error e => .error e
  | .ok args =>
    match jGet args "browserSettings" (.obj []) with
    | .error e => .error e
    | .ok bs =>
      match jGet args "contextId" (.str "open-operator-session") with
      | .error e => .error e
      | .ok cid =>
        match jGet bs "windowSize" (.obj []) with
        | .error e => .error e
        | .ok ws =>
          match jGet ws "width" (.num 1366) with
          | .error e => .error e
          | .ok _ =>
            match jGet ws "height" (.num 768) with
            | .error e => .error e
            | .ok _ =>
              match jGet args "apiKey" apiKeyCfg with
              | .error e => .error e
              | .ok apiKey =>
                if !jTruthy apiKey then
                  .ok ⟨[mkErr "No API key found in config, environment, or arguments"], []⟩
                else .ok (createSessionInner w apiKey cid)

/-- The success object of `execute_step` (lines 547-555). -/
def esSuccessObj (r : List JVal) : JVal :=
  .obj [("success", .bool true),
        ("browserView", r.getD 0 (.str "")),
        ("finalResult", r.getD 1 (.str "")),
        ("extraction", r.getD 1 (.str "")),
        ("errors", r.getD 2 (.str "")),
        ("actions", r.getD 3 (.str "")),
        ("thoughts", r.getD 4 (.str ""))]

/-- The inner `try` of `execute_step` (lines 507-562). -/
def executeStepInner (w : World) : MainOut :=
  match w.clientConnect with
  | .error e => ⟨[mkErr e.msg], ["client"]⟩
  | .ok _ =>
    match w.predict "/run_with_stream" with
    | .error e => ⟨[mkErr e.msg], ["client", "/run_with_stream"]⟩
    | .ok r => ⟨[esSuccessObj r], ["client", "/run_with_stream"]⟩

/-- The `execute_step` branch (lines 492-562): argument gets, the config-key
check (`args` does not override the key here), then the call. -/
def executeStepBranch (w : World) (apiKeyCfg : JVal) : Except PyExn MainOut :=
  match argsOf w with
  | .error e => .error e
  | .ok args =>
    match jGet args "tool" (.str "THINK") with
    | .error e => .error e
    | .ok _ =>
      match jGet args "args" (.obj []) with
      | .error e => .error e
      | .ok _ =>
        match jGet args "text" (.str "") with
        | .error e => .error e
        | .ok _ =>
          match jGet args "task" (.str "") with
          | .error e => .error e
          | .ok _ =>
            if !jTruthy apiKeyCfg then
              .ok ⟨[mkErr "No API key found in config or environment"], []⟩
            else
              match jGet args "use_own_browser" (.bool true) with
              | .error e => .error e
              | .ok _ => .ok (executeStepInner w)

/-- The `close_browser` branch (lines 564-576). -/
def closeBrowserBranch (w : World) : MainOut :=
  match w.clientConnect with
  | .error e => ⟨[mkErr e.msg], ["client"]⟩
  | .ok _ =>
    match w.predict "/close_global_browser" with
    | .error e => ⟨[mkErr e.msg], ["client", "/close_global_browser"]⟩
    | .ok _ =>
      ⟨[.obj [("success", .bool true), ("result", .str "Browser closed successfully")]],
       ["client", "/close_global_browser"]⟩

/-- The `get_screenshot` branch (lines 578-597): a non-empty result prints
its first element, an empty one prints the no-screenshot error. -/
def getScreenshotBranch (w : World) : MainOut :=
  match w.clientConnect with
  | .error e => ⟨[mkErr e.msg], ["client"]⟩
  | .ok _ =>
    match w.predict "/get_screenshot" with
    | .error e => ⟨[mkErr e.msg], ["client", "/get_screenshot"]⟩
    | .ok r =>
      if !r.isEmpty then
        ⟨[.obj [("success", .bool true), ("screenshot", r.getD 0 .null)]],
         ["client", "/get_screenshot"]⟩
      else ⟨[mkErr "No screenshot returned"], ["client", "/get_screenshot"]⟩

/-- The `show_api_key_locations` branch (lines 599-615): no outbound call. -/
def locationsBranch (w : World) : MainOut :=
  let wup := search_web_ui_location w
  ⟨[.obj [("success", .bool true),
          ("locations", .obj
            [("possible_locations", .obj
              [("user_file", .str (w.cwd ++ "/.api-key")),
               ("web_ui_config", optPath (wup.map (fun p => p ++ "/config.yaml"))),
               ("web_ui_env", optPath (wup.map (fun p => p ++ "/.env"))),
               ("user_config", .str (w.home ++ "/.webui/config")),
               ("web_ui_tmp_settings", optPath (wup.map (fun p => p ++ "/tmp/webui_settings")))]),
             ("environment_variables", .arr [.str "OPENAI_API_KEY", .str "API_KEY", .str "OPENAI_KEY"]),
             ("web_ui_path", optPath wup)])]], []⟩

/-- The action dispatch of `main` (lines 386-621). -/
def dispatch (w : World) (cfg : List (String × JVal)) (action : String) : Except PyExn MainOut :=
  let apiKey := (jLook cfg "llm_api_key").getD .null
  if action = "health" then .ok (healthBranch w cfg)
  else if action = "create_session" then createSessionBranch w apiKey
  else if action = "execute_step" then executeStepBranch w apiKey
  else if action = "close_browser" then .ok (closeBrowserBranch w)
  else if action = "get_screenshot" then .ok (getScreenshotBranch w)
  else if action = "show_api_key_locations" then .ok (locationsBranch w)
  else .ok ⟨[mkErr ("Unknown action: " ++ action)], []⟩

/-- `gradio_bridge.main` (lines 360-627): the no-action early return, the
port and config resolution, the dispatch, and the top-level broad `except`
printing the script-error object.  The only exceptions that reach the
top-level handler are raised during argument processing, before any outbound
call. -/
def gradioMain (w : World) : MainOut :=
  if w.argv.length < 2 then ⟨[mkErr "No action specified"], []⟩
  else
    let _port := read_port_file w "WEBUI" 7788
    let cfg := get_config w
    match dispatch w cfg (w.argv.getD 1 "") with
    | .ok out => out
    | .error e => ⟨[mkErr ("Script error: " ++ e.msg)], []⟩

/-- The ambient world of one invocation of `python_bridge.py`.
`httpGetHealth` is `requests.get(".../health_check")` together with
`raise_for_status()` and `.json()`; `httpPostRun` is
`requests.post(".../api/agent/run", ...).json()`. -/
structure PWorld where
  argv : List String
  pathExists : String → Bool
  listDir : String → List String
  pickleLoad : String → Except PyExn JVal
  httpGetHealth : Except PyExn JVal
  httpPostRun : Except PyExn JVal
  jsonLoads : String → Except PyExn JVal

/-- The hard-coded settings directory of `python_bridge.py` (lines 16, 71,
133). -/
def pbSettingsPath : String := "D:\\AI Agent\\AI Agent\\web-ui\\tmp\\webui_settings"

/-- The settings scan of `create_session` and `run_agent` (lines 75-87,
137-149): walk the `.pkl` files, break on the first dict that contains
`llm_api_key` (whatever that value is); load failures are logged and
skipped. -/
def pbScanKey (w : PWorld) : Option JVal :=
  if w.pathExists pbSettingsPath then
    firstHit (fun fn =>
      if strEnds fn ".pkl" then
        match w.pickleLoad (pbSettingsPath ++ "/" ++ fn) with
        | .ok (.obj es) => jLook es "llm_api_key"
        | _ => none
      else none) (w.listDir pbSettingsPath)
  else none

/-- The `model_info` update of the `health` scan (lines 39-43). -/
def pbMiUpdate (es : List (String × JVal)) (mi : Option (JVal × JVal)) : Option (JVal × JVal) :=
  match jLook es "llm_provider", jLook es "llm_model_name" with
  | some p, some m => some (p, m)
  | _, _ => mi

/-- The settings scan of `health` (lines 22-47).  Its `break` sits after the
`isinstance` check, so the loop stops after the first `.pkl` file that loads
at all; only a load failure, or the `TypeError` raised when logging a truthy
non-sliceable key with `api_key[:5]`, continues the loop (the key assignment
has already happened by then, `model_info` has not).  State: the stored key,
and the provider/model pair once a dict supplies both. -/
def pbHealthLoop (w : PWorld) :
    List String → Option JVal × Option (JVal × JVal) → Option JVal × Option (JVal × JVal)
  | [], st => st
  | fn :: rest, st =>
    if strEnds fn ".pkl" then
      match w.pickleLoad (pbSettingsPath ++ "/" ++ fn) with
      | .error _ => pbHealthLoop w rest st
      | .ok (.obj es) =>
        match jLook es "llm_api_key" with
        | some k =>
          if jTruthy k && !jSliceable k then pbHealthLoop w rest (some k, st.2)
          else (some k, pbMiUpdate es st.2)
        | none => (st.1, pbMiUpdate es st.2)
      | .ok _ => st
    else pbHealthLoop w rest st

/-- The success object of `health` (lines 52-62). -/
def pbHealthOk (st : Option JVal × Option (JVal × JVal)) : JVal :=
  .obj [("success", .bool true), ("status", .str "ok"),
        ("endpoints", .arr ((List.range 11).map (fun n => .num n))),
        ("config", .obj
          [("llm_provider", (st.2.map Prod.fst).getD (.str "openai")),
           ("llm_model_name", (st.2.map Prod.snd).getD (.str "gpt-4o")),
           ("has_api_key", .bool (pyT st.1)),
           ("web_ui_path", .null)])]

/-- `python_bridge.health` (lines 6-65): the health-check request, the
settings scan, then either the success object (endpoints `range(11)`,
defaults `openai`/`gpt-4o`) or, when anything raises — including the final
`api_key[:5]` log of a truthy non-sliceable key (line 50) — the error
object with a false success flag. -/
def pbHealth (w : PWorld) : JVal :=
  match w.httpGetHealth with
  | .error e => .obj [("success", .bool false), ("error", .str e.msg)]
  | .ok _ =>
    let st :=
      if w.pathExists pbSettingsPath then pbHealthLoop w (w.listDir pbSettingsPath) (none, none)
      else (none, none)
    match st.1 with
    | some k =>
      if jTruthy k && !jSliceable k then
        .obj [("success", .bool false), ("error", .str "object is not subscriptable")]
      else pbHealthOk st
    | none => pbHealthOk st

/-- Python `"error" in result` (line 115): key membership on dicts, element
membership on lists, substring on strings, `TypeError` otherwise. -/
def jHasErr : JVal → Except PyExn Bool
  | .obj fs => .ok (jLook fs "error").isSome
  | .arr xs => .ok (xs.any (fun x =>
      match x with
      | .str s => s = "error"
      | _ => false))
  | .str s => .ok (hasSub ("error".toList) s.toList)
  | _ => .error ⟨"TypeError", "argument is not iterable"⟩

/-- Python `result["error"]` (line 117): dict lookup; `TypeError`/`KeyError`
otherwise. -/
def jIndexErr : JVal → Except PyExn JVal
  | .obj fs =>
    match jLook fs "error" with
    | some v => .ok v
    | none => .error ⟨"KeyError", "error"⟩
  | _ => .error ⟨"TypeError", "indices must be integers"⟩

/-- `python_bridge.create_session` (lines 67-127): scan for a key; a missing
or falsy key returns the no-key error dict; the `api_key[:5]` log slice,
the POST, its `.json()`, and the error-membership check can all raise, each
handled by one of the `except` clauses into an `error`-only dict; a
response that reports `error` is forwarded as an `error`-only dict; success
is exactly the one-field success dict. -/
def pbCreateSession (w : PWorld) (_cid : JVal) (_bs : JVal) : JVal :=
  match pbScanKey w with
  | none => .obj [("error", .str "No API key found")]
  | some k =>
    if !jTruthy k then .obj [("error", .str "No API key found")]
    else
      match jSliceChk k with
      | .error e => .obj [("error", .str e.msg)]
      | .ok _ =>
        match w.httpPostRun with
        | .error e => .obj [("error", .str e.msg)]
        | .ok resp =>
          match jHasErr resp with
          | .error e => .obj [("error", .str e.msg)]
          | .ok true =>
            match jIndexErr resp with
            | .ok v => .obj [("error", v)]
            | .error e => .obj [("error", .str e.msg)]
          | .ok false => .obj [("success", .bool true)]

/-- `python_bridge.run_agent` (lines 129-175): scan for a key, POST, return
the response JSON unchanged; any raise returns the `error`-only dict. -/
def pbRunAgent (w : PWorld) : JVal :=
  match pbScanKey w with
  | none => .obj [("error", .str "No API key found")]
  | some k =>
    if !jTruthy k then .obj [("error", .str "No API key found")]
    else
      match w.httpPostRun with
      | .error e => .obj [("error", .str e.msg)]
      | .ok resp => resp

/-- The `__main__` block of `python_bridge.py` (lines 178-193): read the
command from `argv[1]` (an `IndexError` escapes when absent), parse
`argv[2]` when present (a parse failure escapes), dispatch on the three
known commands — any other command leaves `result = None` and prints
`null` — and print the single JSON result. -/
def pbMain (w : PWorld) : Except PyExn (List JVal) :=
  match w.argv.get? 1 with
  | none => .error ⟨"IndexError", "list index out of range"⟩
  | some cmd =>
    match (if w.argv.length > 2 then w.jsonLoads (w.argv.getD 2 "") else .ok (.obj [])) with
    | .error e => .error e
    | .ok args =>
      if cmd = "health" then .ok [pbHealth w]
      else if cmd = "create_session" then
        match jGet args "contextId" (.str "") with
        | .error e => .error e
        | .ok cid =>
          match jGet args "browserSettings" .null with
          | .error e => .error e
          | .ok bs => .ok [pbCreateSession w cid bs]
      else if cmd = "run_agent" then
        match jGet args "task" (.str "") with
        | .error e => .error e
        | .ok _ =>
          match jGet args "sessionId" .null with
          | .error e => .error e
          | .ok _ => .ok [pbRunAgent w]
      else .ok [JVal.null]

/-- Shape of every object `gradio_bridge.main` prints: a boolean `success`
field, and an `error` string whenever `success` is false. -/
def GoodObj (j : JVal) : Prop :=
  ∃ b, jField j "success" = some (.bool b) ∧
    (b = false → ∃ m, jField j "error" = some (.str m))

/-- A world in which every probe fails: no files, no environment, no
reachable Web UI. -/
def emptyWorld : World where
  cwd := "/cwd"
  home := "/home"
  now := 0
  argv := []
  env := fun _ => none
  pathExists := fun _ => false
  listDir := fun _ => []
  readText := fun _ => .error ⟨"OSError", "missing"⟩
  pickleLoad := fun _ => .error ⟨"OSError", "missing"⟩
  pickleTimesOut := fun _ => false
  yamlLoad := fun _ => .error ⟨"OSError", "missing"⟩
  procScan := some []
  clientConnect := .error ⟨"ConnectionError", "refused"⟩
  predict := fun _ => .error ⟨"ConnectionError", "refused"⟩
  jsonLoads := fun _ => .error ⟨"ValueError", "bad json"⟩

/-- A world whose only readable file is `./config.yaml` holding the single
entry `fld ↦ v`: used to show a field value flows through `get_config`
unchecked. -/
def passThroughWorld (fld : String) (v : JVal) : World :=
  { emptyWorld with
    pathExists := fun p => p = "/cwd/config.yaml"
    yamlLoad := fun p =>
      if p = "/cwd/config.yaml" then .ok (.obj [(fld, v)]) else .error ⟨"OSError", "missing"⟩ }

/-- A world where the pickle worker for `slow.pkl` never finishes in time. -/
def slowPickleWorld : World :=
  { emptyWorld with pickleTimesOut := fun p => p = "slow.pkl" }

/-- A world where `ok.pkl` deserializes to a one-entry dict. -/
def okPickleWorld : World :=
  { emptyWorld with
    pickleLoad := fun p =>
      if p = "ok.pkl" then .ok (.obj [("a", .null)]) else .error ⟨"OSError", "missing"⟩ }

/-- A world where unpickling `bad.pkl` raises inside the worker. -/
def badPickleWorld : World :=
  { emptyWorld with
    pickleLoad := fun p =>
      if p = "bad.pkl" then .error ⟨"UnpicklingError", "bad"⟩ else .error ⟨"OSError", "missing"⟩ }

/-- A world whose only key source is a valid `./.api-key` file. -/
def userKeyWorld : World :=
  { emptyWorld with
    pathExists := fun p => p = "/cwd/.api-key"
    readText := fun p =>
      if p = "/cwd/.api-key" then .ok "sk-abc\n" else .error ⟨"OSError", "missing"⟩ }

/-- The first raw settings directory literal of
`read_api_key_from_webui_settings`. -/
def rawSettingsDir : String := "D:\\AI Agent\\AI Agent\\web-ui\\tmp\\webui_settings"

/-- A world whose Web UI settings pickle stores an `llm_api_key` that does
not satisfy `validate_api_key`. -/
def unvalidatedKeyWorld : World :=
  { emptyWorld with
    pathExists := fun p => p = rawSettingsDir
    listDir := fun p => if p = rawSettingsDir then ["settings.pkl"] else []
    pickleLoad := fun p =>
      if p = rawSettingsDir ++ "/settings.pkl" then .ok (.obj [("llm_api_key", .str "oops")])
      else .error ⟨"OSError", "missing"⟩ }

/-- A world with two config files both defining `llm_model_name`: the YAML
file probed earlier says `ya`, the pickle probed later says `pk`. -/
def overrideWorld : World :=
  { emptyWorld with
    pathExists := fun p => p = "/cwd/config.yaml" || p = "/cwd/config.pkl"
    yamlLoad := fun p =>
      if p = "/cwd/config.yaml" then .ok (.obj [("llm_model_name", .str "ya")])
      else .error ⟨"OSError", "missing"⟩
    pickleLoad := fun p =>
      if p = "/cwd/config.pkl" then .ok (.obj [("llm_model_name", .str "pk")])
      else .error ⟨"OSError", "missing"⟩ }

/-- A keyless `create_session` invocation of `gradio_bridge.py`. -/
def noKeyCreateWorld : World :=
  { emptyWorld with argv := ["gradio_bridge.py", "create_session"] }

/-- A `python_bridge.py` world: `create_session` with a stored valid key but
a failing POST. -/
def pbPostFailWorld : PWorld where
  argv := ["python_bridge.py", "create_session"]
  pathExists := fun p => p = pbSettingsPath
  listDir := fun p => if p = pbSettingsPath then ["s.pkl"] else []
  pickleLoad := fun p =>
    if p = pbSettingsPath ++ "/s.pkl" then .ok (.obj [("llm_api_key", .str "sk-abc")])
    else .error ⟨"OSError", "missing"⟩
  httpGetHealth := .error ⟨"ConnectionError", "refused"⟩
  httpPostRun := .error ⟨"ConnectionError", "boom"⟩
  jsonLoads := fun _ => .error ⟨"ValueError", "bad json"⟩

/-- A `python_bridge.py` invocation with an unknown command. -/
def pbUnknownWorld : PWorld where
  argv := ["python_bridge.py", "bogus"]
  pathExists := fun _ => false
  listDir := fun _ => []
  pickleLoad := fun _ => .error ⟨"OSError", "missing"⟩
  httpGetHealth := .error ⟨"ConnectionError", "refused"⟩
  httpPostRun := .error ⟨"ConnectionError", "refused"⟩
  jsonLoads := fun _ => .error ⟨"ValueError", "bad json"⟩

lemma firstHit_pred {α β : Type} (f : α → Option β) (P : β → Prop)
    (hf : ∀ a b, f a = some b → P b) :
    ∀ l b, firstHit f l = some b → P b := by
  intro l
  induction l with
  | nil => intro b h; simp [firstHit] at h
  | cons a t ih =>
    intro b h
    simp only [firstHit] at h
    cases ha : f a with
    | none => rw [ha] at h; exact ih b h
    | some c => rw [ha] at h; injection h with hcb; exact hcb ▸ hf a c ha

lemma firstHit_append {α β : Type} (f : α → Option β) (l₁ l₂ : List α) :
    firstHit f (l₁ ++ l₂) =
      match firstHit f l₁ with
      | some b => some b
      | none => firstHit f l₂ := by
  induction l₁ with
  | nil => simp [firstHit]
  | cons a t ih =>
    simp only [List.cons_append, firstHit]
    cases f a <;> simp [ih]

lemma validate_ne_empty {k : String} (h : validate_api_key k = true) : k ≠ "" := by
  intro hk
  subst hk
  simp [validate_api_key] at h

lemma tmpTextScan_valid (w : World) (fp : String) (k : String)
    (h : tmpTextScan w fp = some k) : validate_api_key k = true := by
  unfold tmpTextScan at h
  split at h
  · exact absurd h (by simp)
  · split at h
    · split at h
      · split at h
        · injection h with hk
          subst hk
          assumption
        · exact absurd h (by simp)
      · exact absurd h (by simp)
    · exact absurd h (by simp)

lemma tmpScanFile_valid (w : World) (fp : String) (k : String)
    (h : tmpScanFile w fp = some k) : validate_api_key k = true := by
  unfold tmpScanFile at h
  split at h
  · split at h
    · split at h
      · injection h with hk; subst hk; assumption
      · exact absurd h (by simp)
    · exact absurd h (by simp)
    · split at h
      · exact tmpTextScan_valid w fp k h
      · exact absurd h (by simp)
    · split at h
      · exact absurd h (by simp)
      · exact tmpTextScan_valid w fp k h
    · split at h
      · exact absurd h (by simp)
      · exact tmpTextScan_valid w fp k h
    · split at h
      · exact absurd h (by simp)
      · exact tmpTextScan_valid w fp k h
    · exact absurd h (by simp)
  · exact absurd h (by simp)
  · exact tmpTextScan_valid w fp k h

lemma find_tmp_valid (w : World) (k : String)
    (h : find_api_key_in_tmp_settings w = some k) : validate_api_key k = true := by
  unfold find_api_key_in_tmp_settings at h
  exact firstHit_pred _ _ (fun fp k hk => tmpScanFile_valid w fp k hk) _ k h

lemma user_key_valid (w : World) (k : String)
    (h : get_user_api_key w = some k) : validate_api_key k = true := by
  unfold get_user_api_key at h
  split at h
  · split at h
    · exact absurd h (by simp)
    · split at h
      · split at h
        · injection h with hk; subst hk; assumption
        · exact absurd h (by simp)
      · exact absurd h (by simp)
  · exact absurd h (by simp)

lemma env_key_valid (w : World) (k : String)
    (h : envValidKey w = some k) : validate_api_key k = true := by
  unfold envValidKey at h
  split at h
  · split at h
    · injection h with hk
      subst hk
      rename_i hcond
      exact (Bool.and_eq_true _ _ |>.mp hcond).2
    · exact absurd h (by simp)
  · exact absurd h (by simp)

lemma envLineKey_valid (line k : String)
    (h : envLineKey line = some k) : validate_api_key k = true := by
  unfold envLineKey at h
  split at h
  · split at h
    · injection h with hk; subst hk; assumption
    · exact absurd h (by simp)
  · exact absurd h (by simp)

lemma webUiYamlKey_valid (w : World) (p : String) (k : String)
    (h : webUiYamlKey w p = some k) : validate_api_key k = true := by
  unfold webUiYamlKey at h
  split at h
  · split at h
    · split at h
      · exact absurd h (by simp)
      · split at h
        · split at h
          · injection h with hk; subst hk; assumption
          · exact absurd h (by simp)
        · exact absurd h (by simp)
    · exact absurd h (by simp)
  · exact absurd h (by simp)

lemma web_ui_key_valid (w : World) (k : String)
    (h : find_api_key_in_web_ui w = some k) : validate_api_key k = true := by
  unfold find_api_key_in_web_ui at h
  split at h
  · exact absurd h (by simp)
  · split at h
    · rename_i hy
      injection h with hk
      subst hk
      exact webUiYamlKey_valid _ _ _ hy
    · split at h
      · split at h
        · exact absurd h (by simp)
        · exact firstHit_pred _ _ (fun l k hk => envLineKey_valid l k hk) _ k h
      · exact absurd h (by simp)

lemma env_step_truthy_eq (w : World) :
    (pyT (envStep w) = true → envStep w = (envValidKey w).map JVal.str) ∧
    (pyT (envStep w) = false → envValidKey w = none) := by
  unfold envStep envValidKey
  cases he : w.env "OPENAI_API_KEY" with
  | none => simp [pyT, jTruthy]
  | some v =>
    by_cases hv : v = ""
    · subst hv; simp [pyT, jTruthy]
    · by_cases hval : validate_api_key v = true
      · simp [hv, hval, pyT, jTruthy]
      · simp [hv, hval, pyT, jTruthy]

lemma resolve_eq_firstTruthy (w : World) :
    resolveApiKey w = firstTruthy (keySources w) := by
  have henv := env_step_truthy_eq w
  cases h1 : pyT (read_api_key_from_webui_settings w)
  case true => simp [resolveApiKey, keySources, firstTruthy, h1]
  case false =>
  cases h2 : pyT ((find_api_key_in_tmp_settings w).map JVal.str)
  case true => simp [resolveApiKey, keySources, firstTruthy, h1, h2]
  case false =>
  cases h3 : pyT ((get_user_api_key w).map JVal.str)
  case true => simp [resolveApiKey, keySources, firstTruthy, h1, h2, h3]
  case false =>
  cases h4 : pyT (envStep w)
  case true =>
    have he := henv.1 h4
    rw [he] at h4
    simp [resolveApiKey, keySources, firstTruthy, h1, h2, h3, he, h4]
  case false =>
    have he := henv.2 h4
    cases h5 : find_api_key_in_web_ui w with
    | none =>
      have hn : pyT (none : Option JVal) = false := rfl
      simp only [resolveApiKey, keySources, firstTruthy, h1, h2, h3, h4, h5, he,
        Option.map_none', hn, Bool.false_eq_true, if_false]
    | some k =>
      have hv := web_ui_key_valid w k h5
      have hne := validate_ne_empty hv
      have hkT : pyT (some (JVal.str k)) = true := by simp [pyT, jTruthy, hne]
      have hn : pyT (none : Option JVal) = false := rfl
      simp only [resolveApiKey, keySources, firstTruthy, h1, h2, h3, h4, h5, he,
        Option.map_some', Option.map_none', hkT, hn, Bool.false_eq_true, if_false, if_true]

lemma foldl_mergeStep_eq (w : World) :
    ∀ (L : List String) (acc : String → Option JVal) (k : String),
      (L.foldl (mergeStep w) acc) k =
        match firstHit (fun p => (loadedDict w p).bind (fun es => jLook es k)) L.reverse with
        | some v => some v
        | none => acc k := by
  intro L
  induction L with
  | nil => intro acc k; simp [firstHit]
  | cons p t ih =>
    intro acc k
    rw [List.foldl_cons, ih (mergeStep w acc p) k, List.reverse_cons,
      firstHit_append]
    cases hrest : firstHit (fun p => (loadedDict w p).bind (fun es => jLook es k)) t.reverse with
    | some v => rfl
    | none =>
      simp only [firstHit, mergeStep]
      cases hp : loadedDict w p with
      | none => simp
      | some es =>
        simp only [Option.bind_some, dictUpd]
        cases hj : jLook es k <;> simp [hj]

lemma mergedConfig_eq_lastDefined (w : World) (k : String) :
    mergedConfig w k = lastDefined w k := by
  rw [mergedConfig, lastDefined, foldl_mergeStep_eq]
  cases firstHit (fun p => (loadedDict w p).bind (fun es => jLook es k)) (configPaths w).reverse <;> rfl

lemma goodObj_mkErr (m : String) : GoodObj (mkErr m) :=
  ⟨false, rfl, fun _ => ⟨m, rfl⟩⟩

lemma goodHealth (w : World) (cfg : List (String × JVal)) :
    ∃ x, (healthBranch w cfg).stdout = [x] ∧ GoodObj x := by
  unfold healthBranch
  cases w.clientConnect with
  | error e => exact ⟨_, rfl, false, rfl, fun _ => ⟨e.msg, rfl⟩⟩
  | ok eps => exact ⟨_, rfl, true, rfl, fun h => absurd h (by simp)⟩

lemma goodCsInner (w : World) (apiKey cid : JVal) :
    ∃ x, (createSessionInner w apiKey cid).stdout = [x] ∧ GoodObj x := by
  unfold createSessionInner
  cases jSliceChk apiKey with
  | error e => exact ⟨_, rfl, goodObj_mkErr e.msg⟩
  | ok u =>
    cases w.clientConnect with
    | error e => exact ⟨_, rfl, goodObj_mkErr e.msg⟩
    | ok eps =>
      cases w.predict "/run_with_stream" with
      | error e => exact ⟨_, rfl, goodObj_mkErr e.msg⟩
      | ok r => exact ⟨_, rfl, true, rfl, fun h => absurd h (by simp)⟩

lemma goodCsBranch (w : World) (apiKeyCfg : JVal) (r : MainOut)
    (h : createSessionBranch w apiKeyCfg = .ok r) :
    ∃ x, r.stdout = [x] ∧ GoodObj x := by
  unfold createSessionBranch at h
  split at h
  · simp at h
  · split at h
    · simp at h
    · split at h
      · simp at h
      · split at h
        · simp at h
        · split at h
          · simp at h
          · split at h
            · simp at h
            · split at h
              · simp at h
              · split at h
                · injection h with hr
                  subst hr
                  exact ⟨_, rfl, goodObj_mkErr _⟩
                · injection h with hr
                  subst hr
                  exact goodCsInner w _ _

lemma goodEsInner (w : World) :
    ∃ x, (executeStepInner w).stdout = [x] ∧ GoodObj x := by
  unfold executeStepInner
  cases w.clientConnect with
  | error e => exact ⟨_, rfl, goodObj_mkErr e.msg⟩
  | ok eps =>
    cases w.predict "/run_with_stream" with
    | error e => exact ⟨_, rfl, goodObj_mkErr e.msg⟩
    | ok r => exact ⟨_, rfl, true, rfl, fun h => absurd h (by simp)⟩

lemma goodEsBranch (w : World) (apiKeyCfg : JVal) (r : MainOut)
    (h : executeStepBranch w apiKeyCfg = .ok r) :
    ∃ x, r.stdout = [x] ∧ GoodObj x := by
  unfold executeStepBranch at h
  split at h
  · simp at h
  · split at h
    · simp at h
    · split at h
      · simp at h
      · split at h
        · simp at h
        · split at h
          · simp at h
          · split at h
            · injection h with hr
              subst hr
              exact ⟨_, rfl, goodObj_mkErr _⟩
            · split at h
              · simp at h
              · injection h with hr
                subst hr
                exact goodEsInner w

lemma goodCloseBranch (w : World) :
    ∃ x, (closeBrowserBranch w).stdout = [x] ∧ GoodObj x := by
  unfold closeBrowserBranch
  cases w.clientConnect with
  | error e => exact ⟨_, rfl, goodObj_mkErr e.msg⟩
  | ok eps =>
    cases w.predict "/close_global_browser" with
    | error e => exact ⟨_, rfl, goodObj_mkErr e.msg⟩
    | ok r => exact ⟨_, rfl, true, rfl, fun h => absurd h (by simp)⟩

lemma goodShotBranch (w : World) :
    ∃ x, (getScreenshotBranch w).stdout = [x] ∧ GoodObj x := by
  unfold getScreenshotBranch
  cases w.clientConnect with
  | error e => exact ⟨_, rfl, goodObj_mkErr e.msg⟩
  | ok eps =>
    cases w.predict "/get_screenshot" with
    | error e => exact ⟨_, rfl, goodObj_mkErr e.msg⟩
    | ok r =>
      by_cases hr : r.isEmpty
      · simp only [hr]
        exact ⟨_, rfl, goodObj_mkErr _⟩
      · simp only [Bool.not_eq_true] at hr
        simp only [hr]
        exact ⟨_, rfl, true, rfl, fun h => absurd h (by simp)⟩

lemma goodLocBranch (w : World) :
    ∃ x, (locationsBranch w).stdout = [x] ∧ GoodObj x :=
  ⟨_, rfl, true, rfl, fun h => absurd h (by simp)⟩

lemma goodDispatch (w : World) (cfg : List (String × JVal)) (a : String) (r : MainOut)
    (h : dispatch w cfg a = .ok r) :
    ∃ x, r.stdout = [x] ∧ GoodObj x := by
  unfold dispatch at h
  split at h
  · injection h with hr; subst hr; exact goodHealth w cfg
  · split at h
    · exact goodCsBranch w _ r h
    · split at h
      · exact goodEsBranch w _ r h
      · split at h
        · injection h with hr; subst hr; exact goodCloseBranch w
        · split at h
          · injection h with hr; subst hr; exact goodShotBranch w
          · split at h
            · injection h with hr; subst hr; exact goodLocBranch w
            · injection h with hr; subst hr; exact ⟨_, rfl, goodObj_mkErr _⟩

lemma goodMain (w : World) :
    ∃ x, (gradioMain w).stdout = [x] ∧ GoodObj x := by
  unfold gradioMain
  split
  · exact ⟨_, rfl, goodObj_mkErr _⟩
  · cases hd : dispatch w (get_config w) (w.argv.getD 1 "") with
    | ok out =>
      simp only [hd]
      exact goodDispatch w _ _ out hd
    | error e =>
      simp only [hd]
      exact ⟨_, rfl, goodObj_mkErr _⟩

lemma pbCreateSession_shape (pw : PWorld) (cid bs : JVal) :
    pbCreateSession pw cid bs = .obj [("success", .bool true)] ∨
    ∃ v, pbCreateSession pw cid bs = .obj [("error", v)] := by
  unfold pbCreateSession
  split
  · exact Or.inr ⟨_, rfl⟩
  · split
    · exact Or.inr ⟨_, rfl⟩
    · split
      · exact Or.inr ⟨_, rfl⟩
      · split
        · exact Or.inr ⟨_, rfl⟩
        · split
          · exact Or.inr ⟨_, rfl⟩
          · split <;>
              first
                | exact Or.inl rfl
                | exact Or.inr ⟨_, rfl⟩
          · exact Or.inl rfl

lemma pbRunAgent_shape (pw : PWorld) :
    (∃ v, pbRunAgent pw = .obj [("error", v)]) ∨
    ∃ r, pw.httpPostRun = .ok r ∧ pbRunAgent pw = r := by
  unfold pbRunAgent
  split
  · exact Or.inl ⟨_, rfl⟩
  · split
    · exact Or.inl ⟨_, rfl⟩
    · split
      · exact Or.inl ⟨_, rfl⟩
      · rename_i r heq
        exact Or.inr ⟨r, heq, rfl⟩

/-- C4: `validate_api_key` accepts a string exactly when it is non-empty and
its stripped form starts with `sk-` followed by at least one character of
`[A-Za-z0-9_-]`; and the four non-key configuration fields are passed
through `get_config` entirely unvalidated — an arbitrary value planted in a
config file comes back unchanged. -/
theorem validate_api_key_only_shape_check :
    (∀ s : String, validate_api_key s = true ↔ specKeyShape s) ∧
    (∀ v : JVal,
      jLook (get_config (passThroughWorld "llm_provider" v)) "llm_provider" = some v ∧
      jLook (get_config (passThroughWorld "llm_model_name" v)) "llm_model_name" = some v ∧
      jLook (get_config (passThroughWorld "llm_temperature" v)) "llm_temperature" = some v ∧
      jLook (get_config (passThroughWorld "llm_base_url" v)) "llm_base_url" = some v) := by
  constructor
  · intro s
    by_cases hs : s = ""
    · subst hs
      simp [validate_api_key, specKeyShape]
    · rw [validate_api_key, if_neg hs, specKeyShape, and_iff_right hs, reMatchSk]
      generalize (pyStrip s).toList = l
      rcases l with _ | ⟨c1, _ | ⟨c2, _ | ⟨c3, _ | ⟨c4, rest⟩⟩⟩⟩ <;> simp [and_assoc]
  · intro v
    exact ⟨rfl, rfl, rfl, rfl⟩

/-- C7: `read_port_file` resolves exactly as claimed — the parseable
environment variable first, otherwise the first usable port file, otherwise
the default — and, being a total function of the world, never raises. -/
theorem read_port_file_resolution :
    ∀ (w : World) (service : String) (d : Int),
      read_port_file w service d = portResolutionAsClaimed w service d := by
  intro w service d
  cases he : w.env (strToUpper service ++ "_PORT") with
  | none => simp [read_port_file, portResolutionAsClaimed, he, portFromFiles]
  | some s =>
    by_cases hs : s = ""
    · subst hs
      have h0 : pyInt "" = none := rfl
      simp [read_port_file, portResolutionAsClaimed, he, h0, portFromFiles]
    · cases hp : pyInt s with
      | some n => simp [read_port_file, portResolutionAsClaimed, he, hs, hp]
      | none => simp [read_port_file, portResolutionAsClaimed, he, hs, hp, portFromFiles]

/-- C6: on a timed-out deserialization the wrapper raises `queue.Empty`
(what `multiprocessing.Queue.get` actually raises), not the claimed
`TimeoutError` naming the path; worker exceptions are re-raised unchanged
and successful loads are yielded. -/
theorem pickle_timeout_behavior :
    read_pickle_with_timeout slowPickleWorld "slow.pkl" = .error ⟨"queue.Empty", ""⟩ ∧
    read_pickle_with_timeout okPickleWorld "ok.pkl" = .ok (.obj [("a", .null)]) ∧
    read_pickle_with_timeout badPickleWorld "bad.pkl" = .error ⟨"UnpicklingError", "bad"⟩ :=
  ⟨rfl, rfl, rfl⟩

/-- C1, counterexample: with a settings pickle storing `llm_api_key = "oops"`
the cascade resolves to `"oops"`, a key `validate_api_key` rejects — so not
every key `get_config` resolves passes the validity check. -/
theorem apiKey_cascade_cex :
    resolveApiKey unvalidatedKeyWorld = some (.str "oops") ∧
    validate_api_key "oops" = false :=
  ⟨rfl, rfl⟩

/-- C1, amended: the resolved key is the first Python-truthy value produced
by the five sources in their fixed probing order (so no later source can
influence the result once one yields), and the keys produced by the
tmp-settings, `.api-key`, environment and Web-UI-config sources always pass
`validate_api_key` — but the first source,
`read_api_key_from_webui_settings`, returns its stored value unvalidated. -/
theorem apiKey_cascade_amended :
    ∀ w, resolveApiKey w = firstTruthy (keySources w) ∧
      (∀ k : String,
        find_api_key_in_tmp_settings w = some k ∨ get_user_api_key w = some k ∨
          envValidKey w = some k ∨ find_api_key_in_web_ui w = some k →
        validate_api_key k = true) := by
  intro w
  refine ⟨resolve_eq_firstTruthy w, ?_⟩
  intro k h
  rcases h with h | h | h | h
  · exact find_tmp_valid w k h
  · exact user_key_valid w k h
  · exact env_key_valid w k h
  · exact web_ui_key_valid w k h

/-- Witness for the amended C1 at a concrete world whose `.api-key` file
holds `sk-abc`. -/
theorem apiKey_cascade_amended_witness :
    get_user_api_key userKeyWorld = some "sk-abc" ∧ validate_api_key "sk-abc" = true :=
  ⟨rfl, (apiKey_cascade_amended userKeyWorld).2 "sk-abc" (Or.inr (Or.inl rfl))⟩

/-- C2, counterexample: when the outbound POST of `python_bridge.py
create_session` raises, the script prints `{"error": "boom"}` — an object
with no `success` flag at all. -/
theorem error_reporting_cex :
    pbMain pbPostFailWorld = .ok [.obj [("error", .str "boom")]] ∧
    jField (.obj [("error", .str "boom")]) "success" = none :=
  ⟨rfl, rfl⟩

/-- C2, amended: `gradio_bridge.main` always prints exactly one object
carrying a boolean `success` flag, with an `error` string whenever that flag
is false, and no exception escapes it (it is a total function of the world);
`python_bridge.py`'s `create_session` and `run_agent` handlers never let an
exception escape either, but their failure dicts carry only an `error` entry
and no `success` flag — `create_session` returns either the one-field
success dict or an `error`-only dict, and `run_agent` returns either an
`error`-only dict or the POST response forwarded unchanged. -/
theorem error_reporting_amended :
    (∀ w x, x ∈ (gradioMain w).stdout → GoodObj x) ∧
    (∀ pw cid bs, pbCreateSession pw cid bs = .obj [("success", .bool true)] ∨
      ∃ v, pbCreateSession pw cid bs = .obj [("error", v)]) ∧
    (∀ pw, (∃ v, pbRunAgent pw = .obj [("error", v)]) ∨
      ∃ r, pw.httpPostRun = .ok r ∧ pbRunAgent pw = r) := by
  refine ⟨?_, pbCreateSession_shape, pbRunAgent_shape⟩
  intro w x hx
  obtain ⟨y, hy, hg⟩ := goodMain w
  rw [hy] at hx
  obtain rfl := List.mem_singleton.mp hx
  exact hg

/-- Witness for the amended C2 at a concrete invocation with no action
argument. -/
theorem error_reporting_amended_witness :
    mkErr "No action specified" ∈ (gradioMain emptyWorld).stdout ∧
    GoodObj (mkErr "No action specified") := by
  have h : (gradioMain emptyWorld).stdout = [mkErr "No action specified"] := rfl
  have hmem : mkErr "No action specified" ∈ (gradioMain emptyWorld).stdout := by
    rw [h]
    exact List.mem_singleton.mpr rfl
  exact ⟨hmem, error_reporting_amended.1 emptyWorld _ hmem⟩

/-- C3: for the four non-key fields, whenever some probed config file
defines a field, `get_config` returns the value of the file probed last
among those that define it (`lastDefined` is the first hit over the reversed
probing order). -/
theorem config_last_writer_wins :
    ∀ (w : World) (f : String) (v : JVal),
      (f = "llm_provider" ∨ f = "llm_model_name" ∨ f = "llm_temperature" ∨ f = "llm_base_url") →
      lastDefined w f = some v →
      jLook (get_config w) f = some v := by
  intro w f v hf hv
  have hm : mergedConfig w f = some v := (mergedConfig_eq_lastDefined w f).trans hv
  rcases hf with rfl | rfl | rfl | rfl
  · show some ((mergedConfig w "llm_provider").getD (.str "openai")) = some v
    rw [hm]
    rfl
  · show some ((mergedConfig w "llm_model_name").getD (.str "gpt-4o")) = some v
    rw [hm]
    rfl
  · show some ((mergedConfig w "llm_temperature").getD (.num (7 / 10))) = some v
    rw [hm]
    rfl
  · show some ((mergedConfig w "llm_base_url").getD (.str "")) = some v
    rw [hm]
    rfl

/-- Witness for C3: `./config.yaml` (probed earlier) and `./config.pkl`
(probed later) both define `llm_model_name`; the pickle's value wins. -/
theorem config_last_writer_wins_witness :
    lastDefined overrideWorld "llm_model_name" = some (.str "pk") ∧
    jLook (get_config overrideWorld) "llm_model_name" = some (.str "pk") :=
  ⟨rfl, config_last_writer_wins overrideWorld "llm_model_name" (.str "pk")
    (Or.inr (Or.inl rfl)) rfl⟩

/-- C5: every invocation of `gradio_bridge.main` prints exactly one JSON
value to standard output, and `log` writes to standard error. -/
theorem gradio_single_json_output :
    (∀ w, (gradioMain w).stdout.length = 1) ∧ (∀ m, (log m).1 = Channel.stderr) := by
  constructor
  · intro w
    obtain ⟨x, hx, -⟩ := goodMain w
    rw [hx]
    rfl
  · intro m
    rfl

/-- C9: `get_config` always returns exactly the five fields, in order, and
every non-key field no probed file defines takes its documented default. -/
theorem get_config_shape :
    ∀ w, (get_config w).map Prod.fst =
        ["llm_provider", "llm_model_name", "llm_temperature", "llm_base_url", "llm_api_key"] ∧
      (∀ f,
        (f = "llm_provider" ∨ f = "llm_model_name" ∨ f = "llm_temperature" ∨ f = "llm_base_url") →
        lastDefined w f = none →
        jLook (get_config w) f = some (defaultFor f)) := by
  intro w
  refine ⟨rfl, ?_⟩
  intro f hf hn
  have hm : mergedConfig w f = none := (mergedConfig_eq_lastDefined w f).trans hn
  rcases hf with rfl | rfl | rfl | rfl
  · show some ((mergedConfig w "llm_provider").getD (.str "openai")) = some (defaultFor "llm_provider")
    rw [hm]
    rfl
  · show some ((mergedConfig w "llm_model_name").getD (.str "gpt-4o")) = some (defaultFor "llm_model_name")
    rw [hm]
    rfl
  · show some ((mergedConfig w "llm_temperature").getD (.num (7 / 10))) = some (defaultFor "llm_temperature")
    rw [hm]
    rfl
  · show some ((mergedConfig w "llm_base_url").getD (.str "")) = some (defaultFor "llm_base_url")
    rw [hm]
    rfl

/-- Witness for C9 at the world where no config file exists. -/
theorem get_config_shape_witness :
    lastDefined emptyWorld "llm_temperature" = none ∧
    jLook (get_config emptyWorld) "llm_temperature" = some (defaultFor "llm_temperature") :=
  ⟨rfl, (get_config_shape emptyWorld).2 "llm_temperature" (Or.inr (Or.inr (Or.inl rfl))) rfl⟩

/-- C8: a `create_session` invocation whose argument object supplies no
`apiKey` (and whose `browserSettings`/`windowSize`, when present, are
objects, so argument processing does not raise) prints exactly the no-key
error object and issues no outbound call when the cascade resolves no
truthy key. -/
theorem create_session_no_key_early_return :
    ∀ (w : World) (args bsfs wsfs : List (String × JVal)),
      ¬ w.argv.length < 2 →
      w.argv.getD 1 "" = "create_session" →
      argsOf w = .ok (.obj args) →
      jLook args "apiKey" = none →
      (jLook args "browserSettings").getD (.obj []) = .obj bsfs →
      (jLook bsfs "windowSize").getD (.obj []) = .obj wsfs →
      pyT (resolveApiKey w) = false →
      gradioMain w =
        ⟨[mkErr "No API key found in config, environment, or arguments"], []⟩ := by
  intro w args bsfs wsfs hlen hact hargs hak hbs hws hres
  have hkeyF : jTruthy ((resolveApiKey w).getD .null) = false := by
    cases hr : resolveApiKey w with
    | none => rfl
    | some v => rw [hr] at hres; simpa [pyT] using hres
  have hkey : jLook (get_config w) "llm_api_key" = some ((resolveApiKey w).getD .null) := rfl
  have hdisp : dispatch w (get_config w) "create_session" =
      createSessionBranch w ((jLook (get_config w) "llm_api_key").getD .null) := rfl
  have hcs : createSessionBranch w ((resolveApiKey w).getD .null) =
      .ok ⟨[mkErr "No API key found in config, environment, or arguments"], []⟩ := by
    simp only [createSessionBranch, hargs, jGet, hbs, hws, hak, Option.getD_none, hkeyF,
      Bool.not_false, if_true]
  simp only [gradioMain, if_neg hlen, hact, hdisp, hkey, Option.getD_some, hcs]

/-- Witness for C8 at the concrete keyless `create_session` invocation. -/
theorem create_session_no_key_early_return_witness :
    argsOf noKeyCreateWorld = .ok (.obj []) ∧
    pyT (resolveApiKey noKeyCreateWorld) = false ∧
    gradioMain noKeyCreateWorld =
      ⟨[mkErr "No API key found in config, environment, or arguments"], []⟩ :=
  ⟨rfl, rfl,
    create_session_no_key_early_return noKeyCreateWorld [] [] []
      (by decide) rfl rfl rfl rfl rfl rfl⟩

/-- C10: any command other than the three known ones leaves `result` equal
to `None`, and `python_bridge.py` prints the JSON value `null` (provided
execution reaches the dispatch, i.e. the optional second argument parses). -/
theorem pb_unknown_command_prints_null :
    ∀ (w : PWorld) (cmd : String),
      w.argv.get? 1 = some cmd →
      cmd ≠ "health" → cmd ≠ "create_session" → cmd ≠ "run_agent" →
      (w.argv.length ≤ 2 ∨ ∃ a, w.jsonLoads (w.argv.getD 2 "") = .ok a) →
      pbMain w = .ok [JVal.null] := by
  intro w cmd h1 h2 h3 h4 hp
  have hargs : ∃ a,
      (if w.argv.length > 2 then w.jsonLoads (w.argv.getD 2 "") else .ok (.obj [])) =
        .ok a := by
    rcases hp with hle | ⟨a, ha⟩
    · exact ⟨.obj [], by rw [if_neg (by omega)]⟩
    · by_cases hgt : w.argv.length > 2
      · exact ⟨a, by rw [if_pos hgt]; exact ha⟩
      · exact ⟨.obj [], by rw [if_neg hgt]⟩
  obtain ⟨a, ha⟩ := hargs
  simp only [pbMain, h1, ha, h2, h3, h4, if_neg, if_false]

/-- Witness for C10 at a concrete invocation with the command `bogus`. -/
theorem pb_unknown_command_prints_null_witness :
    pbUnknownWorld.argv.get? 1 = some "bogus" ∧ pbMain pbUnknownWorld = .ok [JVal.null] :=
  ⟨rfl,
    pb_unknown_command_prints_null pbUnknownWorld "bogus" rfl (by decide) (by decide)
      (by decide) (Or.inl (by decide))⟩
